import Mathlib

/-!
Verification of the polygon-agent-sdk core against its specification.

The development shallowly embeds the JavaScript sources:

* `lib/storage.mjs` — the encrypted-at-rest credential vault
  (AES-256-GCM `encrypt` / `decrypt`, `saveBuilderConfig`,
  `saveWalletSession`, `saveWalletRequest`, `loadWalletRequest`);
* `cli/commands/wallet.mjs` — request creation
  (`applySessionPermissionParams`, `walletCreate`) and session binding
  (`decryptAndSaveSession`);
* `lib/polymarket.mjs` — CLOB HMAC authentication
  (`makeClobAuthHeaders`) and the on-chain `splitPosition` helper;
* `cli/commands/polymarket.mjs` — the `polymarketBuy` orchestrator
  (plan computation and the ordered broadcast steps).

External collaborators (node:crypto primitives, `tweetnacl` sealed boxes,
JSON parsing, the HTTP venue and the chain) are modelled as explicit
function parameters or, where the specification fixes their behaviour,
as concrete Lean functions whose doc comments say so. JavaScript numbers
appearing in price and amount arithmetic are modelled as rationals.
-/

namespace PolygonAgent

/-- Byte strings are lists of naturals; a well-formed byte lies below 256. -/
abbrev Bytes := List Nat

/-- Well-formedness of a byte string: every entry is a byte value. -/
def bytesOk (b : Bytes) : Prop := ∀ x ∈ b, x < 256

instance (b : Bytes) : Decidable (bytesOk b) := by
  unfold bytesOk; infer_instance

/-- UTF-8 encoding of one character. -/
def utf8Bytes (c : Char) : Bytes :=
  let n := c.toNat
  if n < 128 then [n]
  else if n < 2048 then [192 + n / 64, 128 + n % 64]
  else if n < 65536 then [224 + n / 4096, 128 + n / 64 % 64, 128 + n % 64]
  else [240 + n / 262144, 128 + n / 4096 % 64, 128 + n / 64 % 64, 128 + n % 64]

/-- UTF-8 bytes of a string, the representation node writes and hashes. -/
def strBytes (s : String) : Bytes :=
  s.data.flatMap utf8Bytes

/-! ### Hexadecimal encoding

`storage.mjs` stores the initialization vector, ciphertext and
authentication tag as lowercase hex strings
(`iv.toString(hex)`, `cipher.update(..., hex)`, `authTag.toString(hex)`). -/

/-- Hex digit characters in value order, as produced by Buffer hex output. -/
def hexChars : List Char :=
  "0123456789abcdef".data

/-- Character for the hex digit `n` (defined for `n < 16`). -/
def hexOfDigit (n : Nat) : Char := hexChars.getD n '0'

/-- Value of a hex digit character, `none` for non-hex characters. -/
def hexVal (c : Char) : Option Nat :=
  hexChars.indexOf? c

/-- Two-character hex encoding of one byte. -/
def hexEncodeByte (b : Nat) : List Char :=
  [hexOfDigit (b / 16), hexOfDigit (b % 16)]

/-- Hex encoding of a byte string, as Buffer hex output renders it. -/
def hexEncode (l : Bytes) : String :=
  String.mk (l.flatMap hexEncodeByte)

/-- Decode a character list as hex byte pairs. -/
def hexDecodeChars : List Char → Option Bytes
  | [] => some []
  | [_] => none
  | c1 :: c2 :: rest => do
      let hi ← hexVal c1
      let lo ← hexVal c2
      let tail ← hexDecodeChars rest
      pure ((16 * hi + lo) :: tail)

/-- Decode a hex string into bytes, `none` on malformed input. -/
def hexDecode (s : String) : Option Bytes :=
  hexDecodeChars s.data

/-! ### Base64 and URL-safe base64

`wallet.mjs` encodes ephemeral keys with `b64urlEncode` (standard base64
with `+` replaced by `-`, `/` by `_`, padding stripped) and decodes with
`b64urlDecode` (the reverse substitution, repadding, then base64).
`polymarket.mjs` decodes the CLOB secret as base64url and re-encodes the
HMAC digest as base64 with `+` and `/` substituted. The node base64 decoder
ignores characters outside the alphabet (including padding), which the
model mirrors by filtering before grouping. -/

/-- Standard base64 alphabet in value order. -/
def base64Chars : List Char :=
  "ABCDEFGHIJKLMNOPQRSTUVWXYZabcdefghijklmnopqrstuvwxyz0123456789+/".data

/-- Character for a 6-bit value. -/
def base64OfVal (n : Nat) : Char := base64Chars.getD n 'A'

/-- Value of a base64 character, `none` outside the alphabet. -/
def base64Val (c : Char) : Option Nat :=
  base64Chars.indexOf? c

/-- Encode bytes in 3-byte groups into base64 characters with padding. -/
def base64EncodeGroups : Bytes → List Char
  | [] => []
  | [b1] =>
      [base64OfVal (b1 / 4), base64OfVal (b1 % 4 * 16), '=', '=']
  | [b1, b2] =>
      [base64OfVal (b1 / 4), base64OfVal (b1 % 4 * 16 + b2 / 16),
       base64OfVal (b2 % 16 * 4), '=']
  | b1 :: b2 :: b3 :: rest =>
      base64OfVal (b1 / 4) :: base64OfVal (b1 % 4 * 16 + b2 / 16) ::
      base64OfVal (b2 % 16 * 4 + b3 / 64) :: base64OfVal (b3 % 64) ::
      base64EncodeGroups rest

/-- Standard base64 encoding of a byte string. -/
def base64Encode (l : Bytes) : String :=
  String.mk (base64EncodeGroups l)

/-- Decode base64 characters (already filtered to the alphabet) in 4-character
groups; a trailing group of 3 or 2 characters yields 2 or 1 byte. -/
def base64DecodeGroups : List Char → Bytes
  | c1 :: c2 :: c3 :: c4 :: rest =>
      let v1 := (base64Val c1).getD 0
      let v2 := (base64Val c2).getD 0
      let v3 := (base64Val c3).getD 0
      let v4 := (base64Val c4).getD 0
      (v1 * 4 + v2 / 16) :: (v2 % 16 * 16 + v3 / 4) :: (v3 % 4 * 64 + v4) ::
        base64DecodeGroups rest
  | [c1, c2, c3] =>
      let v1 := (base64Val c1).getD 0
      let v2 := (base64Val c2).getD 0
      let v3 := (base64Val c3).getD 0
      [v1 * 4 + v2 / 16, v2 % 16 * 16 + v3 / 4]
  | [c1, c2] =>
      let v1 := (base64Val c1).getD 0
      let v2 := (base64Val c2).getD 0
      [v1 * 4 + v2 / 16]
  | _ => []

/-- Base64 decoding as Buffer performs it: characters outside the alphabet
(padding included) are ignored. -/
def base64Decode (s : String) : Bytes :=
  base64DecodeGroups (s.data.filter (fun c => (base64Val c).isSome))

/-- URL-safe base64 encoding used by `b64urlEncode` in `wallet.mjs`:
standard base64 with character substitution and padding stripped. -/
def b64urlEncode (l : Bytes) : String :=
  String.mk (((base64EncodeGroups l).map
    (fun c => if c = '+' then '-' else if c = '/' then '_' else c)).filter
    (fun c => c ≠ '='))

/-- URL-safe base64 decoding used by `b64urlDecode` in `wallet.mjs`:
substitute `-` and `_` back, then base64-decode (repadding is a no-op for
the padding-ignoring decoder). -/
def b64urlDecode (s : String) : Bytes :=
  base64Decode (String.map (fun c => if c = '-' then '+' else if c = '_' then '/' else c) s)

/-! ### The credential vault (`storage.mjs` lines 499–530)

`encrypt` draws a fresh 16-byte initialization vector, runs AES-256-GCM
and returns a record of iv, ciphertext and authentication tag with all
three fields hex encoded; `decrypt` re-derives the key, sets the expected
authentication tag and raises when the tag does not authenticate the
ciphertext.

The AES-256-GCM primitive itself lives in `node:crypto`, outside this
repository. Modelled from the spec: a 256-bit-keyed authenticated cipher
with a per-call initialization vector and an authentication tag, failing
closed on any tag mismatch. GCM is counter mode plus a tag over the
ciphertext, so the model keeps exactly that structure — a keystream XORed
with the plaintext and a 16-byte tag recomputed from key, iv and
ciphertext at decryption time; the block-cipher internals are folded into
the concrete mixing functions below, on which no theorem depends. -/

/-- Keystream byte `i` for a given key and initialization vector. -/
def mixByte (key iv : Bytes) (i : Nat) : Nat :=
  (key.foldl (fun a b => a * 31 + b) 7 +
    iv.foldl (fun a b => a * 131 + b) 13 * 17 + i * 97) % 256

/-- Counter-mode keystream of length `n`. -/
def keystream (key iv : Bytes) (n : Nat) : Bytes :=
  (List.range n).map (mixByte key iv)

/-- Authentication tag (16 bytes) over the ciphertext. -/
def gcmTag (key iv ct : Bytes) : Bytes :=
  (List.range 16).map
    (fun i => ct.foldl (fun a b => (a * 257 + b) % 65521) (mixByte key iv (1000 + i)) % 256)

/-- Byte-wise XOR, truncating to the shorter operand as `zipWith` does. -/
def xorBytes (a b : Bytes) : Bytes :=
  List.zipWith (fun x y => x ^^^ y) a b

/-- On-disk encrypted record: hex initialization vector, hex ciphertext and
hex authentication tag, exactly the object literal `encrypt` returns. -/
structure VaultSecret where
  iv : String
  encrypted : String
  authTag : String
deriving Repr, DecidableEq

/-- Vault encryption (`storage.mjs` `encrypt`): AES-256-GCM under the
machine key with the supplied fresh initialization vector, hex-encoding
all three components. -/
def encrypt (key iv plaintext : Bytes) : VaultSecret :=
  let ct := xorBytes plaintext (keystream key iv plaintext.length)
  { iv := hexEncode iv
    encrypted := hexEncode ct
    authTag := hexEncode (gcmTag key iv ct) }

/-- Vault decryption (`storage.mjs` `decrypt`): decode the hex fields, set
the expected tag and fail closed unless the tag authenticates the
ciphertext under the key. -/
def decrypt (key : Bytes) (c : VaultSecret) : Except String Bytes :=
  match hexDecode c.iv, hexDecode c.encrypted, hexDecode c.authTag with
  | some iv, some ct, some tag =>
      if tag = gcmTag key iv ct then
        Except.ok (xorBytes ct (keystream key iv ct.length))
      else Except.error "DecryptionFailure"
  | _, _, _ => Except.error "DecryptionFailure"

/-- Flip bit `i` of a byte string (bit `i % 8` of byte `i / 8`). -/
def flipBitAt (l : Bytes) (i : Nat) : Bytes :=
  l.set (i / 8) (l.getD (i / 8) 0 ^^^ 2 ^ (i % 8))

/-- Corrupt a stored record by flipping one bit of its authentication tag. -/
def tamperAuthTag (c : VaultSecret) (i : Nat) : VaultSecret :=
  { c with authTag :=
      match hexDecode c.authTag with
      | some tag => hexEncode (flipBitAt tag i)
      | none => c.authTag }

/-! ### On-disk records (`storage.mjs` lines 532–608)

Each `save*` function serializes one JSON object to its own file. The
model captures the written object shape: a list of named fields whose
leaves are either clear-text strings or numbers, a JSON `null`, or a
vault-encrypted `VaultSecret` record. Opaque serialized sub-objects are
modelled as the strings the code stores. -/

/-- Shape of a value as it reaches the file: clear text, a number, `null`,
or a vault-encrypted record. -/
inductive StoredValue where
  | plain (s : String)
  | num (n : Nat)
  | null
  | enc (v : VaultSecret)
deriving Repr, DecidableEq

/-- Builder configuration passed to `saveBuilderConfig`. -/
structure BuilderConfig where
  privateKey : String
  eoaAddress : String
  accessKey : String
  projectId : String

/-- File content written by `saveBuilderConfig`: the private key is vault
encrypted, the remaining fields are stored as-is. -/
def saveBuilderConfigFile (key iv : Bytes) (c : BuilderConfig) : List (String × StoredValue) :=
  [("privateKey", StoredValue.enc (encrypt key iv (strBytes c.privateKey))),
   ("eoaAddress", StoredValue.plain c.eoaAddress),
   ("accessKey", StoredValue.plain c.accessKey),
   ("projectId", StoredValue.plain c.projectId)]

/-- Wallet session object as `decryptAndSaveSession` constructs it
(`wallet.mjs` lines 224–236) and `saveWalletSession` persists it. -/
structure StoredSession where
  walletAddress : String
  chainId : Nat
  chain : String
  projectAccessKey : Option String
  explicitSession : String
  sessionPk : String
  implicitPk : String
  implicitMeta : String
  implicitAttestation : String
  implicitIdentitySig : String
  createdAt : String
deriving Repr, DecidableEq

/-- File content written by `saveWalletSession`: `JSON.stringify(session)`
verbatim — every field, the session signing keys included, as clear text. -/
def saveWalletSessionFile (s : StoredSession) : List (String × StoredValue) :=
  [("walletAddress", StoredValue.plain s.walletAddress),
   ("chainId", StoredValue.num s.chainId),
   ("chain", StoredValue.plain s.chain),
   ("projectAccessKey",
     match s.projectAccessKey with
     | some k => StoredValue.plain k
     | none => StoredValue.null),
   ("explicitSession", StoredValue.plain s.explicitSession),
   ("sessionPk", StoredValue.plain s.sessionPk),
   ("implicitPk", StoredValue.plain s.implicitPk),
   ("implicitMeta", StoredValue.plain s.implicitMeta),
   ("implicitAttestation", StoredValue.plain s.implicitAttestation),
   ("implicitIdentitySig", StoredValue.plain s.implicitIdentitySig),
   ("createdAt", StoredValue.plain s.createdAt)]

/-- Pending approval request as `walletCreate` constructs it
(`wallet.mjs` lines 102–111) and `saveWalletRequest` persists it. -/
structure WalletRequest where
  rid : String
  walletName : String
  chain : String
  createdAt : String
  expiresAt : String
  publicKeyB64u : String
  privateKeyB64u : String
  projectAccessKey : Option String
deriving Repr, DecidableEq

/-- File content written by `saveWalletRequest`: `JSON.stringify(request)`
verbatim — the ephemeral private key included, as clear text. -/
def saveWalletRequestFile (r : WalletRequest) : List (String × StoredValue) :=
  [("rid", StoredValue.plain r.rid),
   ("walletName", StoredValue.plain r.walletName),
   ("chain", StoredValue.plain r.chain),
   ("createdAt", StoredValue.plain r.createdAt),
   ("expiresAt", StoredValue.plain r.expiresAt),
   ("publicKeyB64u", StoredValue.plain r.publicKeyB64u),
   ("privateKeyB64u", StoredValue.plain r.privateKeyB64u),
   ("projectAccessKey",
     match r.projectAccessKey with
     | some k => StoredValue.plain k
     | none => StoredValue.null)]

/-! ### Chain-name resolution

`normalizeChain` and `resolveNetwork` live in `lib/utils.mjs`, which is
not among the provided sources. -/

/-- Modelled from the spec: `normalizeChain` (from `lib/utils.mjs`, absent
from the provided sources) canonicalizes a chain-name alias and rejects
unknown names; requests store the canonical string. -/
def normalizeChain (s : String) : Option String :=
  if s = "polygon" ∨ s = "matic" ∨ s = "pol" then some "polygon"
  else if s = "polygon-amoy" ∨ s = "amoy" then some "polygon-amoy"
  else none

/-- Network descriptor with the numeric chain id used for cross-validation. -/
structure Network where
  name : String
  chainId : Nat
deriving Repr, DecidableEq

/-- Modelled from the spec: `resolveNetwork` (from `lib/utils.mjs`, absent
from the provided sources) maps a canonical chain name to its network,
with Polygon mainnet having chain id 137. -/
def resolveNetwork (s : String) : Option Network :=
  if s = "polygon" then some { name := "polygon", chainId := 137 }
  else if s = "polygon-amoy" then some { name := "polygon-amoy", chainId := 80002 }
  else none

/-! ### Session binding (`wallet.mjs` `decryptAndSaveSession`, lines 153–239)

The binding loads the pending request, checks expiry, opens the sealed
box, parses and validates the payload, cross-checks the chain id and
overwrites the session file. The sealed-box primitive, `Date.parse` and
`JSON.parse` are external collaborators carried in `JsEnv`; opaque JSON
sub-objects (attestation, identity signature, serialized explicit
session) are modelled as the strings they serialize to. -/

/-- Implicit-session block of the decrypted payload; `pk`, `attestation`
and `identitySignature` are required (falsy values rejected). -/
structure ImplicitBlock where
  pk : Option String
  attestation : Option String
  identitySignature : Option String
  meta : String
deriving Repr, DecidableEq

/-- Explicit-session block: its signing key and its opaque serialization. -/
structure ExplicitBlock where
  pk : Option String
  serialized : String
deriving Repr, DecidableEq

/-- Decrypted approval payload, each field optional as in parsed JSON. -/
structure SessionPayload where
  walletAddress : Option String
  chainId : Option Nat
  explicitSession : Option ExplicitBlock
  implicit : Option ImplicitBlock
deriving Repr, DecidableEq

/-- External collaborators of the binding: wall-clock time, `Date.parse`,
`sealedbox.open` (ciphertext, public key, private key) and payload
parsing (`JSON.parse` with revivers). -/
structure JsEnv where
  nowMs : Nat
  nowIso : String
  dateParse : String → Option Nat
  sboxOpen : Bytes → Bytes → Bytes → Option Bytes
  parsePayload : Bytes → Option SessionPayload

/-- On-disk store: one pending-request file per request id and one session
file per wallet name. -/
structure StoreState where
  requests : List (String × WalletRequest)
  wallets : List (String × StoredSession)
deriving Repr, DecidableEq

/-- Associative update modelling an overwriting `fs.writeFileSync`. -/
def setAssoc {α : Type} (l : List (String × α)) (k : String) (v : α) : List (String × α) :=
  (k, v) :: l.filter (fun p => p.1 ≠ k)

/-- Result reported by a successful binding. -/
structure BindResult where
  walletAddress : String
  chainId : Nat
  chain : String
deriving Repr, DecidableEq

/-- JavaScript truthiness for an optional string: absent or empty is falsy. -/
def truthyStr : Option String → Option String
  | some "" => none
  | o => o

/-- Session binding (`decryptAndSaveSession`): load the request, check
expiry (`Date.parse(expiresAt)` finite and strictly passed), open the
sealed box against the stored ephemeral key pair, parse, validate the
required fields, cross-check the chain id and save the session,
overwriting any prior session of that wallet name. The pending request
itself is left untouched. -/
def decryptAndSaveSession (env : JsEnv) (name ciphertext rid : String) (st : StoreState) :
    Except String BindResult × StoreState :=
  match st.requests.lookup rid with
  | none => (Except.error "Request not found", st)
  | some request =>
    match normalizeChain (if request.chain = "" then "polygon" else request.chain) with
    | none => (Except.error "Unknown chain", st)
    | some chain =>
      let expired :=
        match env.dateParse request.expiresAt with
        | some exp => decide (env.nowMs > exp)
        | none => false
      if expired then (Except.error "ExpiredRequest", st)
      else
        let publicKey := b64urlDecode request.publicKeyB64u
        let privateKey := b64urlDecode request.privateKeyB64u
        let ciphertextBuf := b64urlDecode ciphertext
        match env.sboxOpen ciphertextBuf publicKey privateKey with
        | none => (Except.error "Failed to decrypt ciphertext", st)
        | some decrypted =>
          match env.parsePayload decrypted with
          | none => (Except.error "InvalidPayload", st)
          | some payload =>
            match truthyStr payload.walletAddress with
            | none => (Except.error "Missing walletAddress in payload", st)
            | some walletAddress =>
              match payload.chainId with
              | none => (Except.error "Missing chainId in payload", st)
              | some chainId =>
                if chainId = 0 then (Except.error "Missing chainId in payload", st)
                else
                  match resolveNetwork chain with
                  | none => (Except.error "Unknown network", st)
                  | some net =>
                    if net.chainId ≠ chainId then (Except.error "ChainMismatch", st)
                    else
                      match payload.explicitSession with
                      | none => (Except.error "Missing explicitSession in payload", st)
                      | some explicitSession =>
                        match truthyStr explicitSession.pk with
                        | none => (Except.error "Missing explicitSession.pk in payload", st)
                        | some sessionPk =>
                          match payload.implicit with
                          | none => (Except.error "Missing implicit session in payload", st)
                          | some implicit =>
                            match truthyStr implicit.pk, truthyStr implicit.attestation,
                                truthyStr implicit.identitySignature with
                            | some implicitPk, some attestation, some identitySig =>
                              let sess : StoredSession :=
                                { walletAddress := walletAddress
                                  chainId := chainId
                                  chain := chain
                                  projectAccessKey := request.projectAccessKey
                                  explicitSession := explicitSession.serialized
                                  sessionPk := sessionPk
                                  implicitPk := implicitPk
                                  implicitMeta := implicit.meta
                                  implicitAttestation := attestation
                                  implicitIdentitySig := identitySig
                                  createdAt := env.nowIso }
                              (Except.ok { walletAddress := walletAddress, chainId := chainId, chain := chain },
                               { st with wallets := setAssoc st.wallets name sess })
                            | _, _, _ => (Except.error "Missing implicit session in payload", st)

/-! ### Session permission parameters (`wallet.mjs` lines 43–76, 79–148)

`applySessionPermissionParams` appends spending-limit and whitelist query
parameters to the approval link; `walletCreate` builds the link itself.
`getArg` and `getArgs` live in `lib/utils.mjs`, absent from the provided
sources. -/

/-- Modelled from the spec: `getArg` (from `lib/utils.mjs`, absent from
the provided sources) returns the argument token immediately following
the named flag, or nothing when the flag is absent or last. -/
def getArg : List String → String → Option String
  | [], _ => none
  | [_], _ => none
  | x :: y :: rest, flag => if x = flag then some y else getArg (y :: rest) flag

/-- Modelled from the spec: `getArgs` (from `lib/utils.mjs`, absent from
the provided sources) collects every token following an occurrence of the
repeatable flag. -/
def getArgs : List String → String → List String
  | [], _ => []
  | [_], _ => []
  | x :: y :: rest, flag =>
      if x = flag then y :: getArgs (y :: rest) flag else getArgs (y :: rest) flag

/-- ERC-8004 contract addresses always whitelisted in sessions. -/
def ERC8004_CONTRACTS : List String :=
  ["0x8004A169FB4a3325136EB29fA0ceB6D2e539a432",
   "0x8004BAa17C55a88189AE136b182e5fdA19dE9b63"]

/-- Query parameters appended by `applySessionPermissionParams`, in
order; fails when exactly one of the one-off transfer flags is given. -/
def applySessionPermissionParams (args : List String) : Except String (List (String × String)) :=
  let usdcTo := truthyStr (getArg args "--usdc-to")
  let usdcAmount := truthyStr (getArg args "--usdc-amount")
  match usdcTo, usdcAmount with
  | some _, none => Except.error "Must provide both --usdc-to and --usdc-amount"
  | none, some _ => Except.error "Must provide both --usdc-to and --usdc-amount"
  | to?, amt? =>
    let erc20Params :=
      match to?, amt? with
      | some t, some a => [("erc20", "usdc"), ("erc20To", t), ("erc20Amount", a)]
      | _, _ => []
    let nativeLimit :=
      match truthyStr (getArg args "--native-limit") with
      | some v => some v
      | none => truthyStr (getArg args "--pol-limit")
    let usdcLimit := (truthyStr (getArg args "--usdc-limit")).getD "50"
    let usdtLimit := truthyStr (getArg args "--usdt-limit")
    let tokenLimits := ((getArgs args "--token-limit").map String.trim).filter
      (fun s => !s.isEmpty)
    let userContracts := ((getArgs args "--contract").map String.trim).filter
      (fun s => !s.isEmpty)
    let allContracts := (ERC8004_CONTRACTS ++ userContracts).eraseDups
    Except.ok
      (erc20Params ++
       (match nativeLimit with | some v => [("nativeLimit", v)] | none => []) ++
       [("usdcLimit", usdcLimit)] ++
       (match usdtLimit with | some v => [("usdtLimit", v)] | none => []) ++
       (if tokenLimits.isEmpty then []
        else [("tokenLimits", String.intercalate "," tokenLimits)]) ++
       [("contracts", String.intercalate "," allContracts)])

/-- Approval-link query parameters built by `walletCreate`: request id,
wallet name, ephemeral public key, chain, optional access key, then the
session permission parameters. -/
def walletCreateLink (args : List String) (rid pub : String) (accessKeyEnv : Option String) :
    Except String (List (String × String)) :=
  let name := (truthyStr (getArg args "--name")).getD "main"
  let chainArg := (truthyStr (getArg args "--chain")).getD "polygon"
  match normalizeChain chainArg with
  | none => Except.error "Unknown chain"
  | some chain =>
    let accessKey :=
      match truthyStr (getArg args "--access-key") with
      | some k => some k
      | none => accessKeyEnv
    match applySessionPermissionParams args with
    | Except.error e => Except.error e
    | Except.ok perms =>
      Except.ok
        ([("rid", rid), ("wallet", name), ("pub", pub), ("chain", chain)] ++
         (match accessKey with | some k => [("accessKey", k)] | none => []) ++ perms)

/-! ### SHA-256 and HMAC

`makeClobAuthHeaders` in `polymarket.mjs` signs with
`createHmac(sha256, keyBuf)` from `node:crypto`, outside this
repository. Modelled from the spec: the keyed hash is HMAC-SHA256, so
SHA-256 (FIPS 180-4) and HMAC (RFC 2104, 64-byte block) are implemented
here directly; 32-bit words are naturals reduced modulo `2 ^ 32`. -/

/-- Reduce to a 32-bit word. -/
def w32 (n : Nat) : Nat := n % 4294967296

/-- Right-rotation of a 32-bit word by `n` places. -/
def rotr32 (n x : Nat) : Nat := w32 (x / 2 ^ n + x % 2 ^ n * 2 ^ (32 - n))

/-- SHA-256 round constants. -/
def shaK : List Nat :=
  [1116352408, 1899447441, 3049323471, 3921009573, 961987163,
   1508970993, 2453635748, 2870763221, 3624381080, 310598401,
   607225278, 1426881987, 1925078388, 2162078206, 2614888103,
   3248222580, 3835390401, 4022224774, 264347078, 604807628,
   770255983, 1249150122, 1555081692, 1996064986, 2554220882,
   2821834349, 2952996808, 3210313671, 3336571891, 3584528711,
   113926993, 338241895, 666307205, 773529912, 1294757372,
   1396182291, 1695183700, 1986661051, 2177026350, 2456956037,
   2730485921, 2820302411, 3259730800, 3345764771, 3516065817,
   3600352804, 4094571909, 275423344, 430227734, 506948616,
   659060556, 883997877, 958139571, 1322822218, 1537002063,
   1747873779, 1955562222, 2024104815, 2227730452, 2361852424,
   2428436474, 2756734187, 3204031479, 3329325298]

/-- SHA-256 initial hash value. -/
def shaH0 : List Nat :=
  [1779033703, 3144134277, 1013904242, 2773480762,
   1359893119, 2600822924, 528734635, 1541459225]

/-- Upper-case sigma-0 word function. -/
def bigSigma0 (x : Nat) : Nat := rotr32 2 x ^^^ rotr32 13 x ^^^ rotr32 22 x

/-- Upper-case sigma-1 word function. -/
def bigSigma1 (x : Nat) : Nat := rotr32 6 x ^^^ rotr32 11 x ^^^ rotr32 25 x

/-- Lower-case sigma-0 word function. -/
def smallSigma0 (x : Nat) : Nat := rotr32 7 x ^^^ rotr32 18 x ^^^ x / 2 ^ 3

/-- Lower-case sigma-1 word function. -/
def smallSigma1 (x : Nat) : Nat := rotr32 17 x ^^^ rotr32 19 x ^^^ x / 2 ^ 10

/-- Choice word function. -/
def chF (x y z : Nat) : Nat := x &&& y ^^^ ((4294967295 ^^^ x) &&& z)

/-- Majority word function. -/
def majF (x y z : Nat) : Nat := x &&& y ^^^ x &&& z ^^^ y &&& z

/-- Merkle–Damgård padding: a 1-bit, zeros to 56 mod 64, then the bit
length as 8 big-endian bytes. -/
def shaPad (msg : Bytes) : Bytes :=
  let len := msg.length
  let k := (56 + 64 - (len + 1) % 64) % 64
  let bitLen := len * 8
  msg ++ [128] ++ List.replicate k 0 ++
    ([56, 48, 40, 32, 24, 16, 8, 0].map (fun i => bitLen / 2 ^ i % 256))

/-- Big-endian 32-bit words of a byte string. -/
def toWords : Bytes → List Nat
  | b1 :: b2 :: b3 :: b4 :: rest =>
      (b1 * 16777216 + b2 * 65536 + b3 * 256 + b4) :: toWords rest
  | _ => []

/-- Big-endian bytes of a 32-bit word. -/
def wordBytes (n : Nat) : Bytes :=
  [n / 16777216 % 256, n / 65536 % 256, n / 256 % 256, n % 256]

/-- Extend a 16-word block to the 64-word message schedule. -/
def extendSchedule (w : Array Nat) : Array Nat :=
  (List.range 48).foldl
    (fun w _ =>
      let t := w.size
      w.push (w32 (smallSigma1 (w.getD (t - 2) 0) + w.getD (t - 7) 0 +
        smallSigma0 (w.getD (t - 15) 0) + w.getD (t - 16) 0)))
    w

/-- Working registers of the compression function. -/
structure Hash8 where
  a : Nat
  b : Nat
  c : Nat
  d : Nat
  e : Nat
  f : Nat
  g : Nat
  h : Nat
deriving Repr, DecidableEq

/-- Pack eight words into registers. -/
def hash8OfList : List Nat → Hash8
  | [a, b, c, d, e, f, g, h] => ⟨a, b, c, d, e, f, g, h⟩
  | _ => ⟨0, 0, 0, 0, 0, 0, 0, 0⟩

/-- Unpack registers into eight words. -/
def hash8ToList (x : Hash8) : List Nat := [x.a, x.b, x.c, x.d, x.e, x.f, x.g, x.h]

/-- One SHA-256 round for a constant/schedule pair. -/
def roundStep (s : Hash8) (kw : Nat × Nat) : Hash8 :=
  let t1 := w32 (s.h + bigSigma1 s.e + chF s.e s.f s.g + kw.1 + kw.2)
  let t2 := w32 (bigSigma0 s.a + majF s.a s.b s.c)
  ⟨w32 (t1 + t2), s.a, s.b, s.c, w32 (s.d + t1), s.e, s.f, s.g⟩

/-- Compress one 16-word block into the running hash. -/
def compressBlock (hs : List Nat) (blockWords : List Nat) : List Nat :=
  let w := extendSchedule blockWords.toArray
  let fin := (List.zip shaK w.toList).foldl roundStep (hash8OfList hs)
  List.zipWith (fun x y => w32 (x + y)) hs (hash8ToList fin)

/-- Fold the compression function over blocks of 16 words; the fuel is an
upper bound on the block count, making the recursion structural. -/
def processWordsFuel : Nat → List Nat → List Nat → List Nat
  | 0, hs, _ => hs
  | _, hs, [] => hs
  | fuel + 1, hs, wrd :: ws =>
      processWordsFuel fuel (compressBlock hs ((wrd :: ws).take 16)) ((wrd :: ws).drop 16)

/-- Fold the compression function over the padded words, 16 at a time. -/
def processWords (hs ws : List Nat) : List Nat :=
  processWordsFuel ws.length hs ws

/-- SHA-256 digest of a byte string. -/
def sha256 (msg : Bytes) : Bytes :=
  (processWords shaH0 (toWords (shaPad msg))).flatMap wordBytes

/-- HMAC-SHA256 with the standard 64-byte block size. -/
def hmacSha256 (key msg : Bytes) : Bytes :=
  let k0 := if key.length > 64 then sha256 key else key
  let kPad := k0 ++ List.replicate (64 - k0.length) 0
  sha256 ((kPad.map (fun b => b ^^^ 92)) ++ sha256 ((kPad.map (fun b => b ^^^ 54)) ++ msg))

/-! ### CLOB request authentication (`polymarket.mjs` lines 186–199)

`makeClobAuthHeaders` builds the Level-2 headers: the canonical message
is timestamp, upper-cased method, path and body concatenated; the secret
is base64url-decoded to the HMAC key; the digest is base64 encoded and
made URL-safe by substituting `+` and `/` (padding kept). The timestamp
comes from `Date.now()` in the source and is an explicit argument here. -/

/-- CLOB API credential as returned by `deriveClobCreds`. -/
structure ClobCreds where
  key : String
  secret : String
  passphrase : String
  address : String
deriving Repr, DecidableEq

/-- Level-2 authentication headers attached to CLOB requests. -/
structure ClobAuthHeaders where
  POLY_ADDRESS : String
  POLY_SIGNATURE : String
  POLY_TIMESTAMP : String
  POLY_API_KEY : String
  POLY_PASSPHRASE : String
deriving Repr, DecidableEq

/-- Substitute `+` and `/` of a base64 string with the URL-safe alphabet. -/
def urlSafeOfB64 (s : String) : String :=
  String.map (fun c => if c = '+' then '-' else if c = '/' then '_' else c) s

/-- Level-2 HMAC header computation (`makeClobAuthHeaders`). -/
def makeClobAuthHeaders (creds : ClobCreds) (method urlPath body timestamp : String) :
    ClobAuthHeaders :=
  let msg := timestamp ++ method.toUpper ++ urlPath ++ body
  let keyBuf := b64urlDecode creds.secret
  let sig := urlSafeOfB64 (base64Encode (hmacSha256 keyBuf (strBytes msg)))
  { POLY_ADDRESS := creds.address
    POLY_SIGNATURE := sig
    POLY_TIMESTAMP := timestamp
    POLY_API_KEY := creds.key
    POLY_PASSPHRASE := creds.passphrase }

/-! ### Polymarket buy orchestration (`polymarket.mjs` commands file)

`polymarketBuy` plans the trade (always, dry-run included), then on
broadcast runs the ordered steps: fund the EOA, approve USDC.e, grant
CTF transfer approval (plus two extra approvals on neg-risk markets),
split the collateral, derive CLOB credentials and post the SELL order
for the unwanted side. The chain and the venue are external
collaborators carried in `BuyEnv`; the ledger of issued on-chain
transactions is returned alongside the command result. -/

/-- Contract addresses from `lib/polymarket.mjs` (Polygon mainnet). -/
def USDC_E : String := "0x2791Bca1f2de4661ED88A30C99A7a9449Aa84174"

/-- Conditional Token Framework contract. -/
def CTF : String := "0x4D97DCd97eC945f40cF65F87097ACe5EA0476045"

/-- CLOB exchange, the approval target. -/
def CTF_EXCHANGE : String := "0x4bFb41d5B3570DeFd03C39a9A4D8dE6Bd8B8982E"

/-- Neg-risk CLOB exchange. -/
def NEG_RISK_CTF_EXCHANGE : String := "0xC5d563A36AE78145C45a50134d48A1215220f80a"

/-- Neg-risk adapter contract. -/
def NEG_RISK_ADAPTER : String := "0xd91E80cF2E7be2e162c6513ceD06f1dD0dA35296"

/-- Parsed market as `parseMarket` returns it (token ids may be absent). -/
structure Market where
  conditionId : String
  question : String
  yesTokenId : Option String
  noTokenId : Option String
  yesPrice : Option ℚ
  noPrice : Option ℚ
  negRisk : Bool
deriving Repr, DecidableEq

/-- Requested outcome side. -/
inductive Outcome where
  | yes
  | no
deriving Repr, DecidableEq

/-- JavaScript `Math.round`: half-up rounding to an integer. -/
def jsRound (q : ℚ) : ℤ := ⌊q + 1 / 2⌋

/-- Trade plan reported by the dry run and reused by the broadcast path. -/
structure TradePlan where
  wantedTokenId : String
  unwantedTokenId : String
  wantedCurrentPrice : Option ℚ
  amountUsd : ℚ
  splitAmountUnits : String
  sellUnwantedAt : ℚ
  orderType : String
  negRisk : Bool
deriving Repr, DecidableEq

/-- Plan computation of `polymarketBuy` (lines 565–611): wanted and
unwanted token from the outcome, sell price from the explicit `--price`
(GTC) or 90 percent of the best opposing bid floored at 0.01 (FOK), and
the split amount in micro-USDC. `priceArg` models a truthy `--price`
value after `Number` conversion; `unwantedBid` is the venue quote
`getClobPrice(unwantedTokenId, BUY)`. -/
def polymarketPlan (m : Market) (outcome : Outcome) (amountUsd : ℚ)
    (priceArg : Option ℚ) (unwantedBid : ℚ) : Except String TradePlan :=
  let wantedTokenId := match outcome with | .yes => m.yesTokenId | .no => m.noTokenId
  let unwantedTokenId := match outcome with | .yes => m.noTokenId | .no => m.yesTokenId
  match truthyStr wantedTokenId, truthyStr unwantedTokenId with
  | some wanted, some unwanted =>
    let wantedPrice := match outcome with | .yes => m.yesPrice | .no => m.noPrice
    let priced :=
      match priceArg with
      | some p => (p, "GTC")
      | none => (max (1 / 100) (unwantedBid * (9 / 10)), "FOK")
    let amountUnits := jsRound (amountUsd * 1000000)
    Except.ok
      { wantedTokenId := wanted
        unwantedTokenId := unwanted
        wantedCurrentPrice := wantedPrice
        amountUsd := amountUsd
        splitAmountUnits := toString amountUnits
        sellUnwantedAt := priced.1
        orderType := priced.2
        negRisk := m.negRisk }
  | _, _ => Except.error "Market has no tokenIds"

/-- On-chain call prepared by the library `splitPosition`
(`lib/polymarket.mjs` lines 403–425): neg-risk markets go through the
two-argument adapter entry point, others through the CTF contract. -/
structure SplitCall where
  toAddr : String
  conditionId : String
  amount : ℤ
  usesNegRiskAbi : Bool
deriving Repr, DecidableEq

/-- Library `splitPosition` call construction, branching on `negRisk`. -/
def splitPositionCall (conditionId : String) (amount : ℤ) (negRisk : Bool) : SplitCall :=
  if negRisk then
    { toAddr := NEG_RISK_ADAPTER, conditionId := conditionId, amount := amount, usesNegRiskAbi := true }
  else
    { toAddr := CTF, conditionId := conditionId, amount := amount, usesNegRiskAbi := false }

/-- Split invocation of the orchestrator
(`splitPosition(walletClient, publicClient, \x7b conditionId, amount \x7d)`):
no `negRisk` property is passed, so the library parameter takes its
default `false`. -/
def splitPositionCallDefault (conditionId : String) (amount : ℤ) : SplitCall :=
  splitPositionCall conditionId amount false

/-- Outcomes of the external steps of a broadcast buy: funding transfer,
approvals, split, credential derivation, order posting (the posted
extracted order id may be absent even on success). -/
structure BuyEnv where
  fundTx : Except String String
  approveUsdceTx : Except String String
  approveCtfExchangeTx : Except String String
  approveNegRiskExchangeTx : Except String String
  approveNegRiskAdapterTx : Except String String
  splitTx : Except String String
  deriveCreds : Except String ClobCreds
  postOrder : Except String (Option String)

/-- One on-chain transaction issued by the orchestrator. -/
structure ChainTx where
  description : String
  toAddr : String
deriving Repr, DecidableEq

/-- Final JSON of a broadcast buy; on order failure the transaction
references stay populated, the order id is null and the error is kept. -/
structure BuyOutcome where
  fundTxHash : Option String
  approveTxHash : Option String
  splitTxHash : Option String
  orderId : Option String
  orderError : Option String
  orderType : Option String
  sellPrice : Option ℚ
deriving Repr, DecidableEq

/-- Broadcast path of `polymarketBuy` (lines 630–723): the ordered,
forward-only steps, with the ledger of issued on-chain transactions.
Order-posting failure is caught and reported with the prior transaction
references; nothing is rolled back. -/
def polymarketBuyBroadcast (env : BuyEnv) (m : Market) (outcome : Outcome)
    (amountUsd : ℚ) (priceArg : Option ℚ) (unwantedBid : ℚ) :
    Except String BuyOutcome × List ChainTx :=
  match polymarketPlan m outcome amountUsd priceArg unwantedBid with
  | Except.error e => (Except.error e, [])
  | Except.ok plan =>
    let txs1 : List ChainTx := [{ description := "fund EOA: transfer USDC.e", toAddr := USDC_E }]
    match env.fundTx with
    | Except.error e => (Except.error e, txs1)
    | Except.ok fundHash =>
      let txs2 := txs1 ++ [{ description := "approve USDC.e for CTF Exchange", toAddr := USDC_E }]
      match env.approveUsdceTx with
      | Except.error e => (Except.error e, txs2)
      | Except.ok approveHash =>
        let txs3 := txs2 ++
          [{ description := "setApprovalForAll CTF, operator CTF Exchange", toAddr := CTF }]
        match env.approveCtfExchangeTx with
        | Except.error e => (Except.error e, txs3)
        | Except.ok _ =>
          let negStep : Except String Unit × List ChainTx :=
            if m.negRisk then
              match env.approveNegRiskExchangeTx with
              | Except.error e =>
                  (Except.error e,
                   [{ description := "setApprovalForAll CTF, operator Neg Risk Exchange", toAddr := CTF }])
              | Except.ok _ =>
                match env.approveNegRiskAdapterTx with
                | Except.error e =>
                    (Except.error e,
                     [{ description := "setApprovalForAll CTF, operator Neg Risk Exchange", toAddr := CTF },
                      { description := "setApprovalForAll CTF, operator Neg Risk Adapter", toAddr := CTF }])
                | Except.ok _ =>
                    (Except.ok (),
                     [{ description := "setApprovalForAll CTF, operator Neg Risk Exchange", toAddr := CTF },
                      { description := "setApprovalForAll CTF, operator Neg Risk Adapter", toAddr := CTF }])
            else (Except.ok (), [])
          match negStep.1 with
          | Except.error e => (Except.error e, txs3 ++ negStep.2)
          | Except.ok _ =>
            let txs4 := txs3 ++ negStep.2
            let splitCall := splitPositionCallDefault m.conditionId (jsRound (amountUsd * 1000000))
            let txs5 := txs4 ++ [{ description := "splitPosition", toAddr := splitCall.toAddr }]
            match env.splitTx with
            | Except.error e => (Except.error e, txs5)
            | Except.ok splitHash =>
              match env.deriveCreds with
              | Except.error e =>
                  (Except.error ("CLOB credential derivation failed: " ++ e), txs5)
              | Except.ok _ =>
                match env.postOrder with
                | Except.error e =>
                    (Except.ok
                      { fundTxHash := some fundHash
                        approveTxHash := some approveHash
                        splitTxHash := some splitHash
                        orderId := none
                        orderError := some e
                        orderType := none
                        sellPrice := none }, txs5)
                | Except.ok oid =>
                    (Except.ok
                      { fundTxHash := some fundHash
                        approveTxHash := some approveHash
                        splitTxHash := some splitHash
                        orderId := oid
                        orderError := none
                        orderType := some plan.orderType
                        sellPrice := some plan.sellUnwantedAt }, txs5)

/-! ### Concrete instances used as fixtures -/

/-- Concrete pending request as `walletCreate` would persist it. -/
def demoRequest : WalletRequest :=
  { rid := "rid1"
    walletName := "main"
    chain := "polygon"
    createdAt := "2026-01-01T00:00:00.000Z"
    expiresAt := "2026-01-01T02:00:00.000Z"
    publicKeyB64u := b64urlEncode (List.range 32)
    privateKeyB64u := b64urlEncode ((List.range 32).map (fun i => 255 - i))
    projectAccessKey := none }

/-- Concrete store holding the pending request and no sessions. -/
def demoStore : StoreState :=
  { requests := [("rid1", demoRequest)], wallets := [] }

/-- Concrete, fully valid decrypted payload. -/
def demoPayload : SessionPayload :=
  { walletAddress := some "0xWalletAddress"
    chainId := some 137
    explicitSession := some { pk := some "0xSessionPk", serialized := "EXPLICIT_JSON" }
    implicit := some
      { pk := some "0xImplicitPk"
        attestation := some "ATTESTATION_JSON"
        identitySignature := some "IDENTITY_SIG_JSON"
        meta := "META_JSON" } }

/-- Environment in which the request is still live (creation epoch plus
two hours is 7200000 ms) and every ciphertext opens to the valid payload. -/
def demoEnv : JsEnv :=
  { nowMs := 1000
    nowIso := "2026-01-01T00:10:00.000Z"
    dateParse := fun s => if s = "2026-01-01T02:00:00.000Z" then some 7200000 else none
    sboxOpen := fun _ _ _ => some (strBytes "payload")
    parsePayload := fun _ => some demoPayload }

/-- Same environment observed one millisecond after the expiry instant. -/
def demoExpiredEnv : JsEnv :=
  { demoEnv with nowMs := 7200001 }

/-- Concrete market with a 10 percent implied yes price. -/
def demoMarket10 : Market :=
  { conditionId := "0xconditionA"
    question := "Will the demo market resolve yes?"
    yesTokenId := some "YES_TOK"
    noTokenId := some "NO_TOK"
    yesPrice := some (1 / 10)
    noPrice := some (9 / 10)
    negRisk := false }

/-- Concrete combinatorial (neg-risk) market. -/
def demoNegRiskMarket : Market :=
  { demoMarket10 with conditionId := "0xconditionB", negRisk := true }

/-- Concrete CLOB credential. -/
def demoCreds : ClobCreds :=
  { key := "api-key-1", secret := "c2VjcmV0LWJ5dGVz", passphrase := "pass", address := "0xEoa" }

/-- Chain and venue environment in which every step succeeds. -/
def demoBuyEnvAllOk : BuyEnv :=
  { fundTx := Except.ok "0xfundhash"
    approveUsdceTx := Except.ok "0xapprovehash"
    approveCtfExchangeTx := Except.ok "0xctfapprovehash"
    approveNegRiskExchangeTx := Except.ok "0xnegriskexchangehash"
    approveNegRiskAdapterTx := Except.ok "0xnegriskadapterhash"
    splitTx := Except.ok "0xsplithash"
    deriveCreds := Except.ok demoCreds
    postOrder := Except.ok (some "order-1") }

/-- Same environment with the venue rejecting the posted order. -/
def demoBuyEnvOrderFails : BuyEnv :=
  { demoBuyEnvAllOk with postOrder := Except.error "CLOB order error: 403 blocked" }

end PolygonAgent

namespace PolygonAgent

/-! ## Theorems -/

theorem hexVal_hexOfDigit {n : Nat} (h : n < 16) : hexVal (hexOfDigit n) = some n := by
  interval_cases n <;> rfl

theorem hexDecodeChars_encode (l : Bytes) (h : bytesOk l) :
    hexDecodeChars (l.flatMap hexEncodeByte) = some l := by
  induction l with
  | nil => rfl
  | cons b rest ih =>
      have hb : b < 256 := h b (List.mem_cons_self b rest)
      have hrest : bytesOk rest := fun x hx => h x (List.mem_cons_of_mem b hx)
      have hhi : b / 16 < 16 := Nat.div_lt_of_lt_mul (by omega)
      have hlo : b % 16 < 16 := Nat.mod_lt b (by omega)
      have hsplit : (b :: rest).flatMap hexEncodeByte =
          hexOfDigit (b / 16) :: hexOfDigit (b % 16) :: rest.flatMap hexEncodeByte := by
        simp [hexEncodeByte]
      rw [hsplit, hexDecodeChars, hexVal_hexOfDigit hhi, hexVal_hexOfDigit hlo, ih hrest]
      have hdm : 16 * (b / 16) + b % 16 = b := by omega
      simp [hdm]

theorem hexDecode_hexEncode (l : Bytes) (h : bytesOk l) :
    hexDecode (hexEncode l) = some l := by
  simpa [hexDecode, hexEncode] using hexDecodeChars_encode l h

theorem keystream_length (key iv : Bytes) (n : Nat) : (keystream key iv n).length = n := by
  simp [keystream]

theorem keystream_ok (key iv : Bytes) (n : Nat) : bytesOk (keystream key iv n) := by
  intro x hx
  simp only [keystream, List.mem_map] at hx
  obtain ⟨i, _, rfl⟩ := hx
  exact Nat.mod_lt _ (by omega)

theorem gcmTag_ok (key iv ct : Bytes) : bytesOk (gcmTag key iv ct) := by
  intro x hx
  simp only [gcmTag, List.mem_map] at hx
  obtain ⟨i, _, rfl⟩ := hx
  exact Nat.mod_lt _ (by omega)

theorem gcmTag_length (key iv ct : Bytes) : (gcmTag key iv ct).length = 16 := by
  simp [gcmTag]

theorem xorBytes_ok {a b : Bytes} (ha : bytesOk a) (hb : bytesOk b) :
    bytesOk (xorBytes a b) := by
  intro x hx
  simp only [xorBytes, List.mem_iff_get, List.get_eq_getElem] at hx
  obtain ⟨⟨i, hi⟩, rfl⟩ := hx
  rw [List.getElem_zipWith]
  have hia : i < a.length := by
    simp [List.length_zipWith] at hi; omega
  have hib : i < b.length := by
    simp [List.length_zipWith] at hi; omega
  have h1 : a[i] < 2 ^ 8 := ha _ (a.getElem_mem hia)
  have h2 : b[i] < 2 ^ 8 := hb _ (b.getElem_mem hib)
  exact Nat.xor_lt_two_pow h1 h2

theorem xorBytes_cancel : ∀ (a b : Bytes), a.length ≤ b.length →
    xorBytes (xorBytes a b) b = a
  | [], _, _ => rfl
  | x :: a, y :: b, h => by
      simp only [xorBytes, List.zipWith_cons_cons, Nat.xor_cancel_right,
        List.cons.injEq, true_and]
      exact xorBytes_cancel a b (by simpa using h)

theorem xorBytes_length (a b : Bytes) :
    (xorBytes a b).length = min a.length b.length := by
  simp [xorBytes]

theorem decrypt_encrypt_eq (key iv pt : Bytes) (hiv : bytesOk iv) (hpt : bytesOk pt) :
    decrypt key (encrypt key iv pt) = Except.ok pt := by
  have hksOk : bytesOk (keystream key iv pt.length) := keystream_ok key iv pt.length
  have hctOk : bytesOk (xorBytes pt (keystream key iv pt.length)) := xorBytes_ok hpt hksOk
  have hlen : (xorBytes pt (keystream key iv pt.length)).length = pt.length := by
    rw [xorBytes_length, keystream_length, Nat.min_self]
  unfold encrypt decrypt
  rw [hexDecode_hexEncode iv hiv, hexDecode_hexEncode _ hctOk,
    hexDecode_hexEncode _ (gcmTag_ok key iv _)]
  simp only [if_pos rfl]
  rw [hlen]
  exact congrArg Except.ok
    (xorBytes_cancel pt _ (by rw [keystream_length]))

theorem flipBitAt_ne (l : Bytes) (i : Nat) (hi : i / 8 < l.length) :
    flipBitAt l i ≠ l := by
  intro heq
  have h1 : (flipBitAt l i)[i / 8]? = some (l.getD (i / 8) 0 ^^^ 2 ^ (i % 8)) :=
    List.getElem?_set_self hi
  rw [heq, List.getElem?_eq_getElem hi] at h1
  have hgd : l.getD (i / 8) 0 = l[i / 8] := by
    rw [List.getD_eq_getElem?_getD, List.getElem?_eq_getElem hi, Option.getD_some]
  have h4 : l.getD (i / 8) 0 = l.getD (i / 8) 0 ^^^ 2 ^ (i % 8) := by
    rw [hgd]; exact Option.some.inj (hgd ▸ h1)
  have h5 := congrArg (fun x => l.getD (i / 8) 0 ^^^ x) h4
  have hzero : (0 : Nat) = 2 ^ (i % 8) := by
    simpa [← Nat.xor_assoc, Nat.xor_self, Nat.zero_xor] using h5
  exact absurd hzero.symm (pow_pos (by omega : (0 : Nat) < 2) (i % 8)).ne'

theorem decrypt_tamper_eq (key iv pt : Bytes) (i : Nat)
    (hiv : bytesOk iv) (hpt : bytesOk pt) (hi : i < 128) :
    decrypt key (tamperAuthTag (encrypt key iv pt) i) = Except.error "DecryptionFailure" := by
  have hksOk : bytesOk (keystream key iv pt.length) := keystream_ok key iv pt.length
  have hctOk : bytesOk (xorBytes pt (keystream key iv pt.length)) := xorBytes_ok hpt hksOk
  have htagOk : bytesOk (gcmTag key iv (xorBytes pt (keystream key iv pt.length))) :=
    gcmTag_ok key iv _
  have htagLen : (gcmTag key iv (xorBytes pt (keystream key iv pt.length))).length = 16 :=
    gcmTag_length key iv _
  have hj : i / 8 < (gcmTag key iv (xorBytes pt (keystream key iv pt.length))).length := by
    rw [htagLen]; omega
  have hflipOk : bytesOk (flipBitAt (gcmTag key iv (xorBytes pt (keystream key iv pt.length))) i) := by
    intro x hx
    rcases List.mem_or_eq_of_mem_set hx with h | h
    · exact htagOk x h
    · subst h
      have h1 : (gcmTag key iv (xorBytes pt (keystream key iv pt.length))).getD (i / 8) 0 < 2 ^ 8 := by
        rw [List.getD_eq_getElem?_getD, List.getElem?_eq_getElem hj]
        exact htagOk _ (List.getElem_mem hj)
      have h2 : (2 : Nat) ^ (i % 8) < 2 ^ 8 :=
        Nat.pow_lt_pow_right (by omega) (Nat.mod_lt i (by omega))
      exact Nat.xor_lt_two_pow h1 h2
  have hne := flipBitAt_ne _ i hj
  unfold encrypt tamperAuthTag decrypt
  simp only
  rw [hexDecode_hexEncode _ (gcmTag_ok key iv _)]
  simp only
  rw [hexDecode_hexEncode iv hiv, hexDecode_hexEncode _ hctOk, hexDecode_hexEncode _ hflipOk]
  simp only [if_neg hne]

/-- Claim C2: vault decryption inverts vault encryption for every byte string,
the empty string included, and flipping any single bit of the stored
authentication tag makes decryption fail with `DecryptionFailure`
instead of returning corrupted plaintext. -/
theorem vault_round_trip_and_tag_tamper :
    (∀ key iv pt : Bytes, bytesOk iv → bytesOk pt →
      decrypt key (encrypt key iv pt) = Except.ok pt) ∧
    (∀ (key iv pt : Bytes) (i : Nat), bytesOk iv → bytesOk pt → i < 128 →
      decrypt key (tamperAuthTag (encrypt key iv pt) i) =
        Except.error "DecryptionFailure") :=
  ⟨fun key iv pt hiv hpt => decrypt_encrypt_eq key iv pt hiv hpt,
   fun key iv pt i hiv hpt hi => decrypt_tamper_eq key iv pt i hiv hpt hi⟩

/-- Witness for C2 at a concrete key, initialization vector, plaintext
(also the empty plaintext) and tampered bit. -/
theorem vault_round_trip_and_tag_tamper_witness :
    decrypt [1, 2, 3] (encrypt [1, 2, 3] [16, 32] (strBytes "hi")) = Except.ok (strBytes "hi") ∧
    decrypt [1, 2, 3] (encrypt [1, 2, 3] [16, 32] []) = Except.ok [] ∧
    decrypt [1, 2, 3] (tamperAuthTag (encrypt [1, 2, 3] [16, 32] (strBytes "hi")) 5) =
      Except.error "DecryptionFailure" :=
  ⟨vault_round_trip_and_tag_tamper.1 [1, 2, 3] [16, 32] (strBytes "hi") (by decide) (by decide),
   vault_round_trip_and_tag_tamper.1 [1, 2, 3] [16, 32] [] (by decide) (by decide),
   vault_round_trip_and_tag_tamper.2 [1, 2, 3] [16, 32] (strBytes "hi") 5 (by decide) (by decide)
     (by decide)⟩

/-- Claim C1 (code bug): the saved wallet-session record stores the session
signing keys (`sessionPk`, `implicitPk`) as clear text, and the saved
pending-request record stores the ephemeral private key
(`privateKeyB64u`) as clear text; only `saveBuilderConfig` passes its
secret through vault `encrypt` before writing. -/
theorem wallet_secrets_stored_clear_text :
    (∀ s : StoredSession,
      (saveWalletSessionFile s).lookup "sessionPk" = some (StoredValue.plain s.sessionPk) ∧
      (saveWalletSessionFile s).lookup "implicitPk" = some (StoredValue.plain s.implicitPk)) ∧
    (∀ r : WalletRequest,
      (saveWalletRequestFile r).lookup "privateKeyB64u" =
        some (StoredValue.plain r.privateKeyB64u)) ∧
    (∀ (key iv : Bytes) (c : BuilderConfig),
      (saveBuilderConfigFile key iv c).lookup "privateKey" =
        some (StoredValue.enc (encrypt key iv (strBytes c.privateKey)))) :=
  ⟨fun _ => ⟨rfl, rfl⟩, fun _ => rfl, fun _ _ _ => rfl⟩

/-- Claim C3: a pending request whose parsed expiry lies strictly before the
current time is rejected with `ExpiredRequest` — for every ciphertext and
every sealed-box behaviour, with the store untouched, because the expiry
check runs before any decryption is attempted. -/
theorem expired_request_rejected_before_decryption
    (env : JsEnv) (name ciphertext rid : String) (st : StoreState)
    (r : WalletRequest) (c : String) (exp : Nat)
    (hr : st.requests.lookup rid = some r)
    (hc : normalizeChain (if r.chain = "" then "polygon" else r.chain) = some c)
    (hp : env.dateParse r.expiresAt = some exp)
    (hlt : exp < env.nowMs) :
    decryptAndSaveSession env name ciphertext rid st = (Except.error "ExpiredRequest", st) := by
  unfold decryptAndSaveSession
  simp only [hr, hc, hp]
  simp [hlt]

/-- Witness for C3: the concrete request expired one millisecond ago is
rejected even though the environment would decrypt any ciphertext into a
fully valid payload. -/
theorem expired_request_rejected_witness :
    decryptAndSaveSession demoExpiredEnv "main" "ANY_CIPHERTEXT" "rid1" demoStore =
      (Except.error "ExpiredRequest", demoStore) :=
  expired_request_rejected_before_decryption demoExpiredEnv "main" "ANY_CIPHERTEXT" "rid1"
    demoStore demoRequest "polygon" 7200000 (by rfl) (by rfl) (by rfl) (by decide)

/-- Claim C9 counterexample: after a successful binding, the very same request
id (and even the same ciphertext) binds successfully a second time — the
pending request is not consumed. -/
theorem request_reuse_counterexample :
    (decryptAndSaveSession demoEnv "main" "CT" "rid1" demoStore).1 =
      Except.ok { walletAddress := "0xWalletAddress", chainId := 137, chain := "polygon" } ∧
    (decryptAndSaveSession demoEnv "main" "CT" "rid1"
        (decryptAndSaveSession demoEnv "main" "CT" "rid1" demoStore).2).1 =
      Except.ok { walletAddress := "0xWalletAddress", chainId := 137, chain := "polygon" } :=
  ⟨rfl, rfl⟩

/-- Claim C9 amended: session binding never deletes or invalidates the pending
request — the request store is unchanged by every binding attempt, so a
request stays usable until its expiry; single use is not enforced. -/
theorem bind_preserves_pending_requests
    (env : JsEnv) (name ciphertext rid : String) (st : StoreState) :
    ((decryptAndSaveSession env name ciphertext rid st).2).requests = st.requests := by
  unfold decryptAndSaveSession
  dsimp only
  repeat' split
  all_goals rfl

theorem truthyStr_some_of_ne {v : String} (h : v ≠ "") : truthyStr (some v) = some v := by
  unfold truthyStr
  split
  · simp_all
  · rfl

theorem applySessionPermissionParams_usdcLimit (args : List String)
    (l : List (String × String))
    (h : applySessionPermissionParams args = Except.ok l) :
    l.lookup "usdcLimit" = some ((truthyStr (getArg args "--usdc-limit")).getD "50") := by
  unfold applySessionPermissionParams at h
  dsimp only at h
  cases hto : truthyStr (getArg args "--usdc-to") <;>
      cases hamt : truthyStr (getArg args "--usdc-amount") <;>
      rw [hto, hamt] at h
  · dsimp only at h
    injection h with h
    subst h
    cases truthyStr (getArg args "--native-limit") <;>
      cases truthyStr (getArg args "--pol-limit") <;> simp [List.lookup]
  · simp at h
  · simp at h
  · dsimp only at h
    injection h with h
    subst h
    cases truthyStr (getArg args "--native-limit") <;>
      cases truthyStr (getArg args "--pol-limit") <;> simp [List.lookup]

/-- Claim C10 counterexample: when `--usdc-limit` is supplied with an empty
value, the approval link carries `usdcLimit=50` rather than the supplied
value. -/
theorem usdc_limit_empty_value_counterexample :
    getArg ["--usdc-limit", ""] "--usdc-limit" = some "" ∧
    (walletCreateLink ["--usdc-limit", ""] "rid1" "PUB" none).map
      (fun ps => ps.lookup "usdcLimit") = Except.ok (some "50") ∧
    ("50" : String) ≠ "" :=
  ⟨rfl, rfl, by decide⟩

/-- Claim C10 amended: every approval link carries a `usdcLimit` parameter; it
equals the caller-supplied `--usdc-limit` value whenever that value is
nonempty, and defaults to "50" when the flag is absent or its value is
empty. -/
theorem approval_link_usdc_limit (args : List String) (rid pub : String)
    (ak : Option String) (params : List (String × String))
    (hok : walletCreateLink args rid pub ak = Except.ok params) :
    (∀ v, getArg args "--usdc-limit" = some v → v ≠ "" →
      params.lookup "usdcLimit" = some v) ∧
    (truthyStr (getArg args "--usdc-limit") = none →
      params.lookup "usdcLimit" = some "50") ∧
    (params.lookup "usdcLimit").isSome = true := by
  have key : params.lookup "usdcLimit" =
      some ((truthyStr (getArg args "--usdc-limit")).getD "50") := by
    unfold walletCreateLink at hok
    dsimp only at hok
    cases hchain : normalizeChain ((truthyStr (getArg args "--chain")).getD "polygon") <;>
      rw [hchain] at hok
    · simp at hok
    · cases hperm : applySessionPermissionParams args <;> rw [hperm] at hok
      · simp at hok
      · dsimp only at hok
        injection hok with hok
        subst hok
        rename_i perms
        have hl := applySessionPermissionParams_usdcLimit args perms hperm
        cases truthyStr (getArg args "--access-key") <;> cases ak <;>
          simp [List.lookup, hl]
  refine ⟨?_, ?_, ?_⟩
  · intro v hv hne
    rw [key, hv, truthyStr_some_of_ne hne]
    rfl
  · intro h0
    rw [key, h0]
    rfl
  · rw [key]
    rfl

/-- Witness for C10 (amended): a caller-supplied limit of 75 appears
verbatim in the link parameters. -/
theorem approval_link_usdc_limit_witness :
    ((walletCreateLink ["--usdc-limit", "75"] "rid9" "PUB" none).toOption.getD []).lookup
      "usdcLimit" = some "75" :=
  (approval_link_usdc_limit ["--usdc-limit", "75"] "rid9" "PUB" none
    ((walletCreateLink ["--usdc-limit", "75"] "rid9" "PUB" none).toOption.getD [])
    (by rfl)).1 "75" (by rfl) (by decide)

/-- Claim C4: in the plan, with no explicit price the unwanted side sells at
max(0.01, 0.9 times the best opposing bid) — 0.01 when the bid is 0 —
as an immediate-or-cancel (FOK) order, while an explicit price is used
exactly as given with a resting (GTC) order. -/
theorem sell_price_floor_and_order_kind
    (m : Market) (outcome : Outcome) (amountUsd b p : ℚ) (y n : String)
    (hy : truthyStr m.yesTokenId = some y) (hn : truthyStr m.noTokenId = some n) :
    ((polymarketPlan m outcome amountUsd none b).map
        (fun pl => (pl.sellUnwantedAt, pl.orderType)) =
      Except.ok (max (1 / 100) (9 / 10 * b), "FOK")) ∧
    (b = 0 →
      (polymarketPlan m outcome amountUsd none b).map
          (fun pl => (pl.sellUnwantedAt, pl.orderType)) =
        Except.ok (1 / 100, "FOK")) ∧
    ((polymarketPlan m outcome amountUsd (some p) b).map
        (fun pl => (pl.sellUnwantedAt, pl.orderType)) =
      Except.ok (p, "GTC")) := by
  refine ⟨?_, ?_, ?_⟩
  · cases outcome <;>
      (unfold polymarketPlan; dsimp only; rw [hy, hn]; simp [Except.map, mul_comm])
  · intro hb
    subst hb
    cases outcome <;>
      (unfold polymarketPlan; dsimp only; rw [hy, hn]; simp [Except.map]; try norm_num)
  · cases outcome <;>
      (unfold polymarketPlan; dsimp only; rw [hy, hn]; simp [Except.map])

/-- Witness for C4 at the 10-percent demo market with a zero bid and an
explicit price of 0.35. -/
theorem sell_price_floor_and_order_kind_witness :
    ((polymarketPlan demoMarket10 Outcome.yes 10 none 0).map
        (fun pl => (pl.sellUnwantedAt, pl.orderType)) =
      Except.ok (max (1 / 100) (9 / 10 * 0), "FOK")) ∧
    ((0 : ℚ) = 0 →
      (polymarketPlan demoMarket10 Outcome.yes 10 none 0).map
          (fun pl => (pl.sellUnwantedAt, pl.orderType)) =
        Except.ok (1 / 100, "FOK")) ∧
    ((polymarketPlan demoMarket10 Outcome.yes 10 (some (35 / 100)) 0).map
        (fun pl => (pl.sellUnwantedAt, pl.orderType)) =
      Except.ok (35 / 100, "GTC")) :=
  sell_price_floor_and_order_kind demoMarket10 Outcome.yes 10 0 (35 / 100) "YES_TOK" "NO_TOK"
    (by rfl) (by rfl)

theorem polymarketPlan_demo10 :
    polymarketPlan demoMarket10 Outcome.yes 10 none (9 / 10) =
      Except.ok { wantedTokenId := "YES_TOK", unwantedTokenId := "NO_TOK",
                  wantedCurrentPrice := some (1 / 10), amountUsd := 10,
                  splitAmountUnits := "10000000", sellUnwantedAt := 81 / 100,
                  orderType := "FOK", negRisk := false } := by
  have h1 : jsRound ((10 : ℚ) * 1000000) = 10000000 := by
    unfold jsRound
    exact Int.floor_eq_iff.mpr (by norm_num)
  have h2 : max ((1 : ℚ) / 100) (9 / 10 * (9 / 10)) = 81 / 100 := by norm_num
  unfold polymarketPlan
  dsimp only [demoMarket10]
  rw [show truthyStr (some "YES_TOK") = some "YES_TOK" from rfl,
    show truthyStr (some "NO_TOK") = some "NO_TOK" from rfl]
  dsimp only
  rw [h1, h2]
  rfl

/-- Claim C5: the split amount of the plan is the USD amount times one million,
rounded to the nearest integer, rendered in decimal; scenario A — a $10
yes-buy on a 10-percent market with no explicit price — reports
splitAmountUnits "10000000", an immediate-or-cancel order and the no
token as the unwanted side. -/
theorem split_amount_units_and_scenario_a
    (m : Market) (outcome : Outcome) (amountUsd b : ℚ) (priceArg : Option ℚ) (y n : String)
    (hy : truthyStr m.yesTokenId = some y) (hn : truthyStr m.noTokenId = some n)
    (hpos : 0 < amountUsd) :
    ((polymarketPlan m outcome amountUsd priceArg b).map (fun pl => pl.splitAmountUnits) =
      Except.ok (toString (round (amountUsd * 1000000)))) ∧
    ((polymarketPlan demoMarket10 Outcome.yes 10 none (9 / 10)).map
        (fun pl => (pl.splitAmountUnits, pl.orderType, pl.unwantedTokenId)) =
      Except.ok ("10000000", "FOK", "NO_TOK")) := by
  constructor
  · cases outcome <;>
      (unfold polymarketPlan; dsimp only; rw [hy, hn];
       cases priceArg <;> simp [Except.map, jsRound, round_eq])
  · rw [polymarketPlan_demo10]
    rfl

/-- Witness for C5 at the demo market with a $10 buy. -/
theorem split_amount_units_and_scenario_a_witness :
    ((polymarketPlan demoMarket10 Outcome.yes 10 none (9 / 10)).map
        (fun pl => pl.splitAmountUnits) =
      Except.ok (toString (round ((10 : ℚ) * 1000000)))) ∧
    ((polymarketPlan demoMarket10 Outcome.yes 10 none (9 / 10)).map
        (fun pl => (pl.splitAmountUnits, pl.orderType, pl.unwantedTokenId)) =
      Except.ok ("10000000", "FOK", "NO_TOK")) :=
  split_amount_units_and_scenario_a demoMarket10 Outcome.yes 10 (9 / 10) none
    "YES_TOK" "NO_TOK" (by rfl) (by rfl) (by norm_num)

/-- Claim C6: when order submission fails after every earlier step (funding,
approvals, split, credential derivation) succeeded, the result keeps
non-null fund, approve and split transaction references, a null order id
and the populated error — and the issued on-chain transactions are
exactly those of a successful run: no rollback transaction is issued. -/
theorem order_failure_partial_result_no_rollback
    (env : BuyEnv) (m : Market) (outcome : Outcome) (amountUsd : ℚ)
    (priceArg : Option ℚ) (unwantedBid : ℚ) (plan : TradePlan)
    (f a c n1 n2 s msg : String) (creds : ClobCreds)
    (hplan : polymarketPlan m outcome amountUsd priceArg unwantedBid = Except.ok plan)
    (hf : env.fundTx = Except.ok f) (ha : env.approveUsdceTx = Except.ok a)
    (hc : env.approveCtfExchangeTx = Except.ok c)
    (hn1 : env.approveNegRiskExchangeTx = Except.ok n1)
    (hn2 : env.approveNegRiskAdapterTx = Except.ok n2)
    (hs : env.splitTx = Except.ok s)
    (hd : env.deriveCreds = Except.ok creds)
    (ho : env.postOrder = Except.error msg) :
    (polymarketBuyBroadcast env m outcome amountUsd priceArg unwantedBid).1 =
      Except.ok { fundTxHash := some f, approveTxHash := some a, splitTxHash := some s,
                  orderId := none, orderError := some msg, orderType := none,
                  sellPrice := none } ∧
    (∀ alt, (polymarketBuyBroadcast { env with postOrder := alt } m outcome amountUsd
        priceArg unwantedBid).2 =
      (polymarketBuyBroadcast env m outcome amountUsd priceArg unwantedBid).2) := by
  constructor
  · unfold polymarketBuyBroadcast
    simp only [hplan, hf, ha, hc, hn1, hn2, hs, hd, ho]
    cases m.negRisk <;> simp
  · intro alt
    unfold polymarketBuyBroadcast
    simp only [hplan, hf, ha, hc, hn1, hn2, hs, hd, ho]
    cases alt <;> cases m.negRisk <;> simp

/-- Witness for C6: concrete run on the demo market where only order
posting fails. -/
theorem order_failure_partial_result_witness :
    (polymarketBuyBroadcast demoBuyEnvOrderFails demoMarket10 Outcome.yes 10 none (9 / 10)).1 =
      Except.ok { fundTxHash := some "0xfundhash", approveTxHash := some "0xapprovehash",
                  splitTxHash := some "0xsplithash", orderId := none,
                  orderError := some "CLOB order error: 403 blocked", orderType := none,
                  sellPrice := none } ∧
    (∀ alt, (polymarketBuyBroadcast { demoBuyEnvOrderFails with postOrder := alt }
        demoMarket10 Outcome.yes 10 none (9 / 10)).2 =
      (polymarketBuyBroadcast demoBuyEnvOrderFails demoMarket10 Outcome.yes 10 none (9 / 10)).2) :=
  order_failure_partial_result_no_rollback demoBuyEnvOrderFails demoMarket10 Outcome.yes 10
    none (9 / 10)
    { wantedTokenId := "YES_TOK", unwantedTokenId := "NO_TOK",
      wantedCurrentPrice := some (1 / 10), amountUsd := 10, splitAmountUnits := "10000000",
      sellUnwantedAt := 81 / 100, orderType := "FOK",
      negRisk := false }
    "0xfundhash" "0xapprovehash" "0xctfapprovehash" "0xnegriskexchangehash"
    "0xnegriskadapterhash" "0xsplithash" "CLOB order error: 403 blocked" demoCreds
    polymarketPlan_demo10 (by rfl) (by rfl) (by rfl) (by rfl) (by rfl) (by rfl) (by rfl) (by rfl)

/-- Claim C7 (code bug): the split step of the orchestrator targets the CTF
contract even for combinatorial (neg-risk) markets, because its call
site passes no negRisk flag and the library default is false; the
library helper itself would target the neg-risk adapter, and the two
addresses differ. The ledger of an all-success neg-risk run records the
CTF address for the split transaction. -/
theorem negrisk_split_sent_to_ctf :
    (∀ (conditionId : String) (amount : ℤ),
      (splitPositionCallDefault conditionId amount).toAddr = CTF) ∧
    (∀ (conditionId : String) (amount : ℤ),
      (splitPositionCall conditionId amount true).toAddr = NEG_RISK_ADAPTER) ∧
    CTF ≠ NEG_RISK_ADAPTER ∧
    ((polymarketBuyBroadcast demoBuyEnvAllOk demoNegRiskMarket Outcome.yes 10
        none (9 / 10)).2.getLast? =
      some { description := "splitPosition", toAddr := CTF }) :=
  ⟨fun _ _ => rfl, fun _ _ => rfl, by decide, by rfl⟩

set_option maxRecDepth 20000 in
/-- Claim C8: the signed-request headers are a deterministic function of
(secret, method, path, body, timestamp); the signature equals the
HMAC-SHA256 of timestamp, upper-cased method, path and body, keyed by
the URL-safe-decoded secret and re-encoded into the URL-safe alphabet;
the HMAC implementation matches the RFC 4231 fixture vector. -/
theorem clob_auth_headers_deterministic_hmac :
    (∀ (c1 c2 : ClobCreds) (m1 m2 p1 p2 b1 b2 t1 t2 : String),
      c1 = c2 → m1 = m2 → p1 = p2 → b1 = b2 → t1 = t2 →
      makeClobAuthHeaders c1 m1 p1 b1 t1 = makeClobAuthHeaders c2 m2 p2 b2 t2) ∧
    (∀ (c : ClobCreds) (m p b t : String),
      (makeClobAuthHeaders c m p b t).POLY_SIGNATURE =
        urlSafeOfB64 (base64Encode (hmacSha256 (b64urlDecode c.secret)
          (strBytes (t ++ m.toUpper ++ p ++ b))))) ∧
    hexEncode (hmacSha256 (strBytes "Jefe") (strBytes "what do ya want for nothing?")) =
      "5bdcc146bf60754e6a042426089575c75a003f089d2739839dec58b964ec3843" :=
  ⟨fun c1 c2 m1 m2 p1 p2 b1 b2 t1 t2 hc hm hp hb ht => by
      rw [hc, hm, hp, hb, ht],
   fun c m p b t => rfl,
   by rfl⟩

/-- Witness for C8 at concrete credentials and inputs. -/
theorem clob_auth_headers_deterministic_hmac_witness :
    makeClobAuthHeaders demoCreds "post" "/order" "BODY" "1700000000" =
      makeClobAuthHeaders demoCreds "post" "/order" "BODY" "1700000000" :=
  clob_auth_headers_deterministic_hmac.1 demoCreds demoCreds "post" "post" "/order" "/order"
    "BODY" "BODY" "1700000000" "1700000000" rfl rfl rfl rfl rfl

end PolygonAgent
